import Mathlib

/-!
Shallow embedding of the Upbit trading bot (`src/server.js`).

The source is a single Express server with two classes:
* `UpbitAPI` — signed HTTP client (JWT generation, canonical query strings,
  balance / recent-orders / place-order operations);
* `TradingEngine` — `executeBuy`, the single buy-execution flow, plus
  `checkDuplicateBuy`.

Network responses and the wall clock are modelled by an explicit
environment `Env`; each exchange round trip is recorded in a call trace so
that claims about which calls occur ("no order-placement call is made")
are statable.  JavaScript numbers are modelled as rationals, timestamps as
integers in milliseconds, thrown errors as `Except String`.
-/

namespace UpbitBot

/-- Milliseconds since the epoch, as `Date.now()` / `new Date(x)` compare. -/
abbrev Timestamp := Int

/-! ## Configuration (the `CONFIG` object, `server.js` lines 13-21) -/

/-- `CONFIG.TRADING_SYMBOL` -/
def TRADING_SYMBOL : String := "KRW-ETH"

/-- `CONFIG.BUY_PERCENTAGE = 0.1` -/
def BUY_PERCENTAGE : ℚ := 1 / 10

/-- `CONFIG.MIN_ORDER_AMOUNT = 5000` -/
def MIN_ORDER_AMOUNT : Int := 5000

/-- `CONFIG.DUPLICATE_PREVENTION_HOURS = 1` -/
def DUPLICATE_PREVENTION_HOURS : Int := 1

/-! ## Data model -/

/-- One element of the `GET /v1/accounts` response: `{currency, balance}`. -/
structure Account where
  currency : String
  balance : ℚ
deriving DecidableEq, Repr

/-- One element of the `GET /v1/orders` response, with the fields the code
reads: `side`, `state`, `created_at` (already parsed to epoch ms). -/
structure Order where
  side : String
  state : String
  created_at : Timestamp
deriving DecidableEq, Repr

/-- The `POST /v1/orders` response object; the code reads `result.uuid`. -/
structure PlacedOrder where
  uuid : String
deriving DecidableEq, Repr

/-- The engine's sole output, `ExecutionResult`: the union of all three
return shapes of `executeBuy` (`server.js` lines 172, 178, 182). -/
structure ExecutionResult where
  success : Bool
  orderId : Option String := none
  amount : Option Int := none
  reason : Option String := none
  error : Option String := none
deriving DecidableEq, Repr

/-- Which exchange round trip an execution performed, in order. -/
inductive ApiCall where
  | getAccounts
  | getOrders
  | placeOrder
deriving DecidableEq, Repr

/-- The external world one `executeBuy` invocation observes: the current
time and the outcome of each of the three possible exchange calls
(`Except.error` models a rejected promise / thrown error). -/
structure Env where
  now : Timestamp
  accounts : Except String (List Account)
  orders : Except String (List Order)
  placeResult : Except String PlacedOrder

/-! ## UpbitAPI operations (pure parts and environment-indexed calls) -/

/-- `getKrwBalance` (lines 108-112): find the `currency == 'KRW'` account,
return its balance, or `0` if absent.  Pure part, applied to the accounts
list returned by `GET /v1/accounts`. -/
def krwBalanceOf (accounts : List Account) : ℚ :=
  match accounts.find? (fun account => account.currency == "KRW") with
  | some krwAccount => krwAccount.balance
  | none => 0

/-- `getKrwBalance` as the engine calls it: one `GET /v1/accounts` round
trip (`getAccounts`), then the pure lookup. -/
def getKrwBalance (env : Env) : Except String ℚ × List ApiCall :=
  match env.accounts with
  | Except.error e => (Except.error e, [ApiCall.getAccounts])
  | Except.ok accounts => (Except.ok (krwBalanceOf accounts), [ApiCall.getAccounts])

/-- The filter predicate of `getRecentOrders` (lines 141-145):
`new Date(order.created_at) >= cutoffTime` with
`cutoffTime = Date.now() - hours * 60 * 60 * 1000`. -/
def withinWindow (now : Timestamp) (hours : Int) (order : Order) : Bool :=
  decide (now - hours * 60 * 60 * 1000 ≤ order.created_at)

/-- Pure part of `getRecentOrders`: filter the exchange's order list by
`withinWindow`. -/
def recentOrdersOf (now : Timestamp) (hours : Int) (orders : List Order) : List Order :=
  orders.filter (withinWindow now hours)

/-- `getRecentOrders(market, hours)` (lines 133-146): one authenticated
`GET /v1/orders` round trip, then the window filter. -/
def getRecentOrders (env : Env) (hours : Int) : Except String (List Order) × List ApiCall :=
  match env.orders with
  | Except.error e => (Except.error e, [ApiCall.getOrders])
  | Except.ok orders => (Except.ok (recentOrdersOf env.now hours orders), [ApiCall.getOrders])

/-- The thrown message of `placeBuyOrder` when `price < MIN_ORDER_AMOUNT`
(line 116). -/
def belowMinimumMsg : String :=
  "최소 주문 금액 " ++ toString MIN_ORDER_AMOUNT ++ "원 이상이어야 합니다."

/-- `placeBuyOrder(market, price)` (lines 114-131): throws before any
network call if `price < MIN_ORDER_AMOUNT`; otherwise one authenticated
`POST /v1/orders` round trip. -/
def placeBuyOrder (env : Env) (price : Int) : Except String PlacedOrder × List ApiCall :=
  if price < MIN_ORDER_AMOUNT then
    (Except.error belowMinimumMsg, [])
  else
    (env.placeResult, [ApiCall.placeOrder])

/-! ## TradingEngine -/

/-- The duplicate filter of `checkDuplicateBuy` (lines 193-195):
`order.side === 'bid' && order.state === 'done'`. -/
def isDoneBid (order : Order) : Bool :=
  order.side == "bid" && order.state == "done"

/-- `checkDuplicateBuy` (lines 186-202): fetch recent orders over the
duplicate-prevention window, keep `bid`/`done` ones, report whether any
exist; its own `try/catch` turns a lookup failure into `false`. -/
def checkDuplicateBuy (env : Env) : Bool × List ApiCall :=
  match getRecentOrders env DUPLICATE_PREVENTION_HOURS with
  | (Except.error _, t) => (false, t)
  | (Except.ok recentOrders, t) =>
      let buyOrders := recentOrders.filter isDoneBid
      (decide (0 < buyOrders.length), t)

/-- The `reason` string returned on a prevented duplicate (line 172). -/
def duplicateReasonMsg : String := "중복 매수 방지"

/-- `buyAmount = Math.floor(krwBalance * CONFIG.BUY_PERCENTAGE)` (line 163). -/
def buyAmountOf (krwBalance : ℚ) : Int :=
  ⌊krwBalance * BUY_PERCENTAGE⌋

/-- The thrown message when the computed amount is below the minimum
(line 166). -/
def insufficientMsg (buyAmount : Int) : String :=
  "잔고 부족: " ++ toString buyAmount ++ "원 (최소 " ++ toString MIN_ORDER_AMOUNT ++ "원)"

/-- The body of the `try` block of `executeBuy` (lines 160-178).  A
`Except.error` outcome is a failure raised inside the `try`, about to be
intercepted by the `catch`. -/
def executeBuyTry (env : Env) : Except String ExecutionResult × List ApiCall :=
  match getKrwBalance env with
  | (Except.error e, t) => (Except.error e, t)
  | (Except.ok krwBalance, t1) =>
      let buyAmount := buyAmountOf krwBalance
      if buyAmount < MIN_ORDER_AMOUNT then
        (Except.error (insufficientMsg buyAmount), t1)
      else
        match checkDuplicateBuy env with
        | (isDuplicate, t2) =>
            if isDuplicate then
              (Except.ok { success := false, reason := some duplicateReasonMsg }, t1 ++ t2)
            else
              match placeBuyOrder env buyAmount with
              | (Except.error e, t3) => (Except.error e, t1 ++ t2 ++ t3)
              | (Except.ok result, t3) =>
                  (Except.ok { success := true, orderId := some result.uuid,
                               amount := some buyAmount }, t1 ++ t2 ++ t3)

/-- `executeBuy` (lines 155-184) as the caller's promise sees it: the
`try/catch` converts any raised failure into
`{success: false, error: message}`, so the function itself may only
resolve, never reject; the `Except` layer records that possibility. -/
def executeBuyExcept (env : Env) : Except String ExecutionResult × List ApiCall :=
  match executeBuyTry env with
  | (Except.ok r, t) => (Except.ok r, t)
  | (Except.error e, t) => (Except.ok { success := false, error := some e }, t)

/-- `executeBuy`, projected to the `ExecutionResult` it always resolves
with, paired with the trace of exchange calls it made. -/
def executeBuy (env : Env) : ExecutionResult × List ApiCall :=
  match executeBuyExcept env with
  | (Except.ok r, t) => (r, t)
  | (Except.error e, t) => ({ success := false, error := some e }, t)

/-! ## SignedExchangeClient: canonical query strings and JWT payloads
(`UpbitAPI.generateJWT` lines 31-48, `UpbitAPI.makeRequest` lines 50-97).
The SHA-512 digest and the HS512 signature are abstract function
parameters: the claims are about which string is hashed, when the hash is
attached, and the shape of the signed payload, not about the digest
internals. -/

/-- Hex digits as `digest('hex')` / `encodeURIComponent` produce them. -/
def HEX_UPPER : List String :=
  ["0", "1", "2", "3", "4", "5", "6", "7", "8", "9", "A", "B", "C", "D", "E", "F"]

/-- One percent-escaped byte, `%XX` with uppercase hex. -/
def percentEncodeByte (b : Nat) : String :=
  "%" ++ HEX_UPPER.getD (b / 16) "0" ++ HEX_UPPER.getD (b % 16) "0"

/-- UTF-8 encoding of a code point, as `encodeURIComponent` escapes it. -/
def utf8Bytes (n : Nat) : List Nat :=
  if n < 128 then [n]
  else if n < 2048 then [192 + n / 64, 128 + n % 64]
  else if n < 65536 then [224 + n / 4096, 128 + n / 64 % 64, 128 + n % 64]
  else [240 + n / 262144, 128 + n / 4096 % 64, 128 + n / 64 % 64, 128 + n % 64]

/-- The characters `encodeURIComponent` leaves unescaped:
`A-Z a-z 0-9 - _ . ! ~ * ( )` and the apostrophe (code point 39). -/
def isUnreservedChar (c : Char) : Bool :=
  c.isAlpha || c.isDigit || c == '-' || c == '_' || c == '.' || c == '!' || c == '~' ||
  c == '*' || c.toNat == 39 || c == '(' || c == ')'

/-- `encodeURIComponent(value)` as used on every query parameter value. -/
def encodeURIComponent (s : String) : String :=
  String.join (s.data.map (fun c =>
    if isUnreservedChar c then String.singleton c
    else String.join ((utf8Bytes c.toNat).map percentEncodeByte)))

/-- One `key=encodeURIComponent(value)` pair (line 61). -/
def queryPairString (p : String × String) : String :=
  p.1 ++ "=" ++ encodeURIComponent p.2

/-- The canonical query string: pairs joined with `&` in the original
parameter order (`Object.keys(params).map(...).join('&')`, lines 60-62). -/
def canonicalQueryString : List (String × String) → String
  | [] => ""
  | [p] => queryPairString p
  | p :: ps => queryPairString p ++ "&" ++ canonicalQueryString ps

/-- The JWT claim set built by `generateJWT` (lines 32-40). -/
structure JwtPayload where
  access_key : String
  nonce : String
  query_hash : Option String := none
  query_hash_alg : Option String := none
deriving DecidableEq, Repr

/-- The signed authentication material of one request: the claim set, the
signing algorithm passed to `jwt.sign`, and the `Authorization` value. -/
structure SignedAuth where
  payload : JwtPayload
  algorithm : String
  authorization : String

/-- `generateJWT(queryHash)` (lines 31-48): build the payload — with
`query_hash`/`query_hash_alg: 'SHA512'` exactly when a hash was passed —
sign it with HS512 (`sign` abstracts `jwt.sign` with `secretKey`), and
return `Bearer <token>`. -/
def generateJWT (sign : JwtPayload → String → String)
    (accessKey secretKey nonce : String) (queryHash : Option String) : SignedAuth :=
  let payload : JwtPayload :=
    match queryHash with
    | some qh => { access_key := accessKey, nonce := nonce,
                   query_hash := some qh, query_hash_alg := some "SHA512" }
    | none => { access_key := accessKey, nonce := nonce }
  { payload := payload, algorithm := "HS512",
    authorization := "Bearer " ++ sign payload secretKey }

/-- The outgoing request assembled by the authenticated branch of
`makeRequest` (lines 55-75): final URL, body, and auth material. -/
structure AuthRequest where
  url : String
  body : Option (List (String × String))
  auth : SignedAuth

/-- The authenticated branch of `makeRequest(method, endpoint, params, true)`
(lines 55-75): when `params` is non-empty build the canonical query string,
append it to the URL for GET (else send it as the body), hash it when
non-empty; then sign.  `sha512hex` abstracts
`crypto.createHash('sha512').update(s).digest('hex')`. -/
def makeRequestAuth (sign : JwtPayload → String → String) (sha512hex : String → String)
    (accessKey secretKey nonce : String) (method url : String)
    (params : List (String × String)) : AuthRequest :=
  if params.isEmpty then
    { url := url, body := none, auth := generateJWT sign accessKey secretKey nonce none }
  else
    let queryString := canonicalQueryString params
    let url2 := if method == "GET" then url ++ "?" ++ queryString else url
    let body := if method == "GET" then none else some params
    let queryHash := if queryString == "" then none else some (sha512hex queryString)
    { url := url2, body := body, auth := generateJWT sign accessKey secretKey nonce queryHash }

/-! ## Concrete test fixtures (used by witnesses and counterexamples) -/

/-- An accounts response holding a 123456 KRW balance. -/
def accountsOK : List Account := [{ currency := "KRW", balance := 123456 }]

/-- An accounts response holding a 49990 KRW balance (sized buy: 4999). -/
def accountsLow : List Account := [{ currency := "KRW", balance := 49990 }]

/-- A completed buy order placed 30 minutes before `now = 7200000`. -/
def dupOrder : Order := { side := "bid", state := "done", created_at := 5400000 }

/-- A completed buy order placed 90 minutes before `now = 7200000`. -/
def oldOrder : Order := { side := "bid", state := "done", created_at := 1800000 }

/-- An order dated one hour after `now = 0`. -/
def futureOrder : Order := { side := "ask", state := "done", created_at := 3600000 }

/-- Happy-path environment: funded account, no recent orders, placement
succeeds with uuid `abc-123`. -/
def envOK : Env :=
  { now := 7200000, accounts := Except.ok accountsOK,
    orders := Except.ok [], placeResult := Except.ok { uuid := "abc-123" } }

/-- Like `envOK` but with a completed buy 30 minutes ago. -/
def envDup : Env := { envOK with orders := Except.ok [dupOrder] }

/-- Like `envOK` but the only completed buy is 90 minutes ago. -/
def envOld : Env := { envOK with orders := Except.ok [oldOrder] }

/-- Like `envOK` but the balance only sizes to 4999. -/
def envLow : Env := { envOK with accounts := Except.ok accountsLow }

/-- The balance fetch rejects. -/
def envBalErr : Env := { envOK with accounts := Except.error "network error" }

/-- The recent-orders lookup rejects. -/
def envLookupErr : Env := { envOK with orders := Except.error "lookup timeout" }

/-- The order placement rejects. -/
def envPlaceErr : Env := { envOK with placeResult := Except.error "order rejected" }

/-- Environment whose order history holds one future-dated order. -/
def envFuture : Env :=
  { now := 0, accounts := Except.ok [], orders := Except.ok [futureOrder],
    placeResult := Except.error "unused" }


/-! ## Run lemmas: how one `executeBuy` invocation behaves in each case -/

/-- The duplicate check always performs exactly one `GET /v1/orders` call. -/
lemma checkDuplicateBuy_trace (env : Env) :
    (checkDuplicateBuy env).2 = [ApiCall.getOrders] := by
  cases h : env.orders <;> simp [checkDuplicateBuy, getRecentOrders, h]

/-- A failed balance fetch is converted into a structured error result;
only the accounts call happened. -/
lemma executeBuy_balance_error (env : Env) (e : String)
    (hacc : env.accounts = Except.error e) :
    executeBuy env = ({ success := false, error := some e }, [ApiCall.getAccounts]) := by
  simp [executeBuy, executeBuyExcept, executeBuyTry, getKrwBalance, hacc]

/-- With a fetched balance whose sized amount is below the minimum, the
engine throws and the catch reports the insufficient-funds message; only
the accounts call happened. -/
lemma executeBuy_insufficient (env : Env) (accounts : List Account)
    (hacc : env.accounts = Except.ok accounts)
    (hlt : buyAmountOf (krwBalanceOf accounts) < MIN_ORDER_AMOUNT) :
    executeBuy env =
      ({ success := false,
         error := some (insufficientMsg (buyAmountOf (krwBalanceOf accounts))) },
       [ApiCall.getAccounts]) := by
  simp [executeBuy, executeBuyExcept, executeBuyTry, getKrwBalance, hacc, hlt]

/-- With a sufficient amount and a positive duplicate check, the engine
returns the duplicate-prevention result; no order placement happened. -/
lemma executeBuy_duplicate (env : Env) (accounts : List Account) (orders : List Order)
    (hacc : env.accounts = Except.ok accounts)
    (hmin : ¬ buyAmountOf (krwBalanceOf accounts) < MIN_ORDER_AMOUNT)
    (hord : env.orders = Except.ok orders)
    (hdup : 0 < ((recentOrdersOf env.now DUPLICATE_PREVENTION_HOURS orders).filter isDoneBid).length) :
    executeBuy env =
      ({ success := false, reason := some duplicateReasonMsg },
       [ApiCall.getAccounts, ApiCall.getOrders]) := by
  simp [executeBuy, executeBuyExcept, executeBuyTry, getKrwBalance, hacc, hmin,
        checkDuplicateBuy, getRecentOrders, hord, hdup]

/-- With a sufficient amount and a negative duplicate check, the engine
places the order; a successful placement yields the success result. -/
lemma executeBuy_place_ok (env : Env) (accounts : List Account) (po : PlacedOrder)
    (hacc : env.accounts = Except.ok accounts)
    (hmin : ¬ buyAmountOf (krwBalanceOf accounts) < MIN_ORDER_AMOUNT)
    (hnodup : (checkDuplicateBuy env).1 = false)
    (hplace : env.placeResult = Except.ok po) :
    executeBuy env =
      ({ success := true, orderId := some po.uuid,
         amount := some (buyAmountOf (krwBalanceOf accounts)) },
       [ApiCall.getAccounts, ApiCall.getOrders, ApiCall.placeOrder]) := by
  have htr := checkDuplicateBuy_trace env
  simp [executeBuy, executeBuyExcept, executeBuyTry, getKrwBalance, hacc, hmin,
        placeBuyOrder, hplace, hnodup, htr]

/-- With a sufficient amount and a negative duplicate check, a raised
placement failure is converted into a structured error result; exactly one
placement call happened. -/
lemma executeBuy_place_error (env : Env) (accounts : List Account) (e : String)
    (hacc : env.accounts = Except.ok accounts)
    (hmin : ¬ buyAmountOf (krwBalanceOf accounts) < MIN_ORDER_AMOUNT)
    (hnodup : (checkDuplicateBuy env).1 = false)
    (hplace : env.placeResult = Except.error e) :
    executeBuy env =
      ({ success := false, error := some e },
       [ApiCall.getAccounts, ApiCall.getOrders, ApiCall.placeOrder]) := by
  have htr := checkDuplicateBuy_trace env
  simp [executeBuy, executeBuyExcept, executeBuyTry, getKrwBalance, hacc, hmin,
        placeBuyOrder, hplace, hnodup, htr]

/-- Exhaustive case analysis of one `executeBuy` invocation: every
environment falls into exactly one of the five terminal behaviors. -/
lemma executeBuy_cases (env : Env) (P : ExecutionResult × List ApiCall → Prop)
    (hbal : ∀ e, env.accounts = Except.error e →
      P ({ success := false, error := some e }, [ApiCall.getAccounts]))
    (hins : ∀ accounts, env.accounts = Except.ok accounts →
      buyAmountOf (krwBalanceOf accounts) < MIN_ORDER_AMOUNT →
      P ({ success := false,
           error := some (insufficientMsg (buyAmountOf (krwBalanceOf accounts))) },
         [ApiCall.getAccounts]))
    (hdup : ∀ accounts orders, env.accounts = Except.ok accounts →
      ¬ buyAmountOf (krwBalanceOf accounts) < MIN_ORDER_AMOUNT →
      env.orders = Except.ok orders →
      0 < ((recentOrdersOf env.now DUPLICATE_PREVENTION_HOURS orders).filter isDoneBid).length →
      P ({ success := false, reason := some duplicateReasonMsg },
         [ApiCall.getAccounts, ApiCall.getOrders]))
    (hok : ∀ accounts po, env.accounts = Except.ok accounts →
      ¬ buyAmountOf (krwBalanceOf accounts) < MIN_ORDER_AMOUNT →
      (checkDuplicateBuy env).1 = false →
      env.placeResult = Except.ok po →
      P ({ success := true, orderId := some po.uuid,
           amount := some (buyAmountOf (krwBalanceOf accounts)) },
         [ApiCall.getAccounts, ApiCall.getOrders, ApiCall.placeOrder]))
    (herr : ∀ accounts e, env.accounts = Except.ok accounts →
      ¬ buyAmountOf (krwBalanceOf accounts) < MIN_ORDER_AMOUNT →
      (checkDuplicateBuy env).1 = false →
      env.placeResult = Except.error e →
      P ({ success := false, error := some e },
         [ApiCall.getAccounts, ApiCall.getOrders, ApiCall.placeOrder])) :
    P (executeBuy env) := by
  rcases hacc : env.accounts with e | accounts
  · rw [executeBuy_balance_error env e hacc]
    exact hbal e hacc
  · by_cases hlt : buyAmountOf (krwBalanceOf accounts) < MIN_ORDER_AMOUNT
    · rw [executeBuy_insufficient env accounts hacc hlt]
      exact hins accounts hacc hlt
    · by_cases hnodup : (checkDuplicateBuy env).1 = false
      · rcases hpl : env.placeResult with e | po
        · rw [executeBuy_place_error env accounts e hacc hlt hnodup hpl]
          exact herr accounts e hacc hlt hnodup hpl
        · rw [executeBuy_place_ok env accounts po hacc hlt hnodup hpl]
          exact hok accounts po hacc hlt hnodup hpl
      · rcases hord : env.orders with e | orders
        · exact absurd (by simp [checkDuplicateBuy, getRecentOrders, hord]) hnodup
        · have htrue : (checkDuplicateBuy env).1 = true := by
            cases hb : (checkDuplicateBuy env).1
            · exact absurd hb hnodup
            · rfl
          have hval : (checkDuplicateBuy env).1
              = decide (0 < ((recentOrdersOf env.now DUPLICATE_PREVENTION_HOURS orders).filter
                  isDoneBid).length) := by
            simp [checkDuplicateBuy, getRecentOrders, hord]
          rw [hval] at htrue
          have hd := of_decide_eq_true htrue
          rw [executeBuy_duplicate env accounts orders hacc hlt hord hd]
          exact hdup accounts orders hacc hlt hord hd

/-! ## Evaluation lemmas for the concrete fixtures (the rational
arithmetic of `Math.floor(balance * 0.1)` does not reduce in the kernel,
so these are established once by `norm_num`) -/

lemma buyAmountOf_123456 : buyAmountOf 123456 = 12345 := by
  unfold buyAmountOf BUY_PERCENTAGE
  norm_num

lemma buyAmountOf_49990 : buyAmountOf 49990 = 4999 := by
  unfold buyAmountOf BUY_PERCENTAGE
  norm_num

lemma krwBalanceOf_accountsOK : krwBalanceOf accountsOK = 123456 := by
  simp [krwBalanceOf, accountsOK]

lemma krwBalanceOf_accountsLow : krwBalanceOf accountsLow = 49990 := by
  simp [krwBalanceOf, accountsLow]

lemma amountOK : buyAmountOf (krwBalanceOf accountsOK) = 12345 := by
  rw [krwBalanceOf_accountsOK, buyAmountOf_123456]

lemma amountLow : buyAmountOf (krwBalanceOf accountsLow) = 4999 := by
  rw [krwBalanceOf_accountsLow, buyAmountOf_49990]

lemma amountOK_ge : ¬ buyAmountOf (krwBalanceOf accountsOK) < MIN_ORDER_AMOUNT := by
  rw [amountOK]
  decide

lemma amountLow_lt : buyAmountOf (krwBalanceOf accountsLow) < MIN_ORDER_AMOUNT := by
  rw [amountLow]
  decide

/-! ## Claims -/

/-- C1: for every signal the engine accepts, `executeBuy` never raises:
whatever the balance fetch, duplicate check, or order placement return or
throw, the invocation resolves with exactly one `ExecutionResult`, and any
failure raised inside the `try` body surfaces as a structured
`{success: false, error}` value rather than a rejection. -/
theorem executeBuy_never_raises (env : Env) :
    (∃ r : ExecutionResult,
      (executeBuyExcept env).1 = Except.ok r ∧ (executeBuy env).1 = r) ∧
    (∀ e t, executeBuyTry env = (Except.error e, t) →
      executeBuy env = ({ success := false, error := some e }, t)) := by
  constructor
  · rcases h : executeBuyTry env with ⟨res, t⟩
    cases res with
    | error e =>
        exact ⟨{ success := false, error := some e },
          by simp [executeBuyExcept, executeBuy, h]⟩
    | ok r => exact ⟨r, by simp [executeBuyExcept, executeBuy, h]⟩
  · intro e t h
    simp [executeBuy, executeBuyExcept, h]

/-- C1 witness: with a failing balance fetch, the raised failure is
converted into `{success: false, error}` and exactly one result comes
back. -/
theorem executeBuy_never_raises_witness :
    (∃ r : ExecutionResult,
      (executeBuyExcept envBalErr).1 = Except.ok r ∧ (executeBuy envBalErr).1 = r) ∧
    executeBuy envBalErr
      = ({ success := false, error := some "network error" }, [ApiCall.getAccounts]) :=
  ⟨(executeBuy_never_raises envBalErr).1,
   (executeBuy_never_raises envBalErr).2 "network error" [ApiCall.getAccounts] rfl⟩

/-- C3: whenever the sized buy amount is below `MIN_ORDER_AMOUNT`, the
result is `{success: false}` carrying the insufficient-funds message and
no order-placement call is made. -/
theorem executeBuy_insufficient_funds_gate (env : Env) (accounts : List Account)
    (hacc : env.accounts = Except.ok accounts)
    (hlt : buyAmountOf (krwBalanceOf accounts) < MIN_ORDER_AMOUNT) :
    (executeBuy env).1.success = false ∧
    (executeBuy env).1.error
      = some (insufficientMsg (buyAmountOf (krwBalanceOf accounts))) ∧
    ApiCall.placeOrder ∉ (executeBuy env).2 := by
  rw [executeBuy_insufficient env accounts hacc hlt]
  simp

/-- C3 witness: a 49990 balance sizes to 4999 < 5000 and yields the
insufficient-funds failure with no placement call. -/
theorem executeBuy_insufficient_funds_gate_witness :
    (executeBuy envLow).1.success = false ∧
    (executeBuy envLow).1.error = some (insufficientMsg 4999) ∧
    ApiCall.placeOrder ∉ (executeBuy envLow).2 := by
  have h := executeBuy_insufficient_funds_gate envLow accountsLow rfl amountLow_lt
  rwa [amountLow] at h

/-- C7: on every successful execution the reported buy amount equals
`Math.floor(balance * BUY_PERCENTAGE)` of the fetched balance; in
particular the sizing of balance 123456 is `floor(12345.6) = 12345`. -/
theorem executeBuy_sizing_law (env : Env) (accounts : List Account)
    (hacc : env.accounts = Except.ok accounts)
    (hsucc : (executeBuy env).1.success = true) :
    (executeBuy env).1.amount = some ⌊krwBalanceOf accounts * BUY_PERCENTAGE⌋ ∧
    buyAmountOf 123456 = 12345 := by
  refine ⟨?_, buyAmountOf_123456⟩
  refine (executeBuy_cases env
    (fun p => p.1.success = true →
      p.1.amount = some ⌊krwBalanceOf accounts * BUY_PERCENTAGE⌋)
    ?_ ?_ ?_ ?_ ?_) hsucc
  · intro e h
    simp
  · intro a h hlt
    simp
  · intro a o h1 h2 h3 h4
    simp
  · intro a po h1 h2 h3 h4 _
    rw [hacc] at h1
    obtain rfl : accounts = a := by injection h1
    rfl
  · intro a e h1 h2 h3 h4
    simp

/-- C7 witness: the happy-path run on a 123456 balance succeeds and
reports amount 12345. -/
theorem executeBuy_sizing_law_witness :
    (executeBuy envOK).1.success = true ∧ (executeBuy envOK).1.amount = some 12345 := by
  have hrun := executeBuy_place_ok envOK accountsOK { uuid := "abc-123" } rfl
    amountOK_ge (by decide) rfl
  have hs : (executeBuy envOK).1.success = true := by rw [hrun]
  have h := (executeBuy_sizing_law envOK accountsOK rfl hs).1
  refine ⟨hs, ?_⟩
  rw [h, show (⌊krwBalanceOf accountsOK * BUY_PERCENTAGE⌋ : Int) = 12345 from amountOK]

/-- C9: on every execution, a successful result carries `orderId` and
`amount`, and a failed result carries at least one of `reason`/`error`. -/
theorem executionResult_field_invariant (env : Env) :
    ((executeBuy env).1.success = true →
      ((executeBuy env).1.orderId.isSome = true ∧
        (executeBuy env).1.amount.isSome = true)) ∧
    ((executeBuy env).1.success = false →
      ((executeBuy env).1.reason.isSome = true ∨
        (executeBuy env).1.error.isSome = true)) := by
  exact executeBuy_cases env
    (fun p => (p.1.success = true →
        (p.1.orderId.isSome = true ∧ p.1.amount.isSome = true)) ∧
      (p.1.success = false →
        (p.1.reason.isSome = true ∨ p.1.error.isSome = true)))
    (by intro e h; simp) (by intro a h hlt; simp)
    (by intro a o h1 h2 h3 h4; simp)
    (by intro a po h1 h2 h3 h4; simp)
    (by intro a e h1 h2 h3 h4; simp)

/-- C9 witness: the balance-fetch failure case yields `success = false`
with an `error` present. -/
theorem executionResult_field_invariant_witness :
    (executeBuy envBalErr).1.success = false ∧
    ((executeBuy envBalErr).1.reason.isSome = true ∨
      (executeBuy envBalErr).1.error.isSome = true) := by
  have hs : (executeBuy envBalErr).1.success = false := rfl
  exact ⟨hs, (executionResult_field_invariant envBalErr).2 hs⟩

/-- C10: when the sized amount is below the minimum, the balance fetch is
the only exchange call: neither the recent-orders lookup nor the placement
appears in the trace. -/
theorem executeBuy_below_min_only_balance_call (env : Env) (accounts : List Account)
    (hacc : env.accounts = Except.ok accounts)
    (hlt : buyAmountOf (krwBalanceOf accounts) < MIN_ORDER_AMOUNT) :
    (executeBuy env).2 = [ApiCall.getAccounts] ∧
    ApiCall.getOrders ∉ (executeBuy env).2 ∧
    ApiCall.placeOrder ∉ (executeBuy env).2 := by
  rw [executeBuy_insufficient env accounts hacc hlt]
  simp

/-- C10 witness: on the 49990-balance environment the trace is exactly the
accounts call. -/
theorem executeBuy_below_min_only_balance_call_witness :
    (executeBuy envLow).2 = [ApiCall.getAccounts] ∧
    ApiCall.getOrders ∉ (executeBuy envLow).2 ∧
    ApiCall.placeOrder ∉ (executeBuy envLow).2 :=
  executeBuy_below_min_only_balance_call envLow accountsLow rfl amountLow_lt

/-- Membership in the window-filtered order list. -/
lemma mem_recentOrdersOf (now : Timestamp) (hours : Int) (orders : List Order) (o : Order) :
    o ∈ recentOrdersOf now hours orders ↔
      (o ∈ orders ∧ withinWindow now hours o = true) := by
  simp [recentOrdersOf, List.mem_filter]

/-- C2 counterexample: with a `bid`/`done` order 30 minutes old and a one
hour window, the buy is prevented, but the `reason` string is the Korean
source literal, not `"duplicate_prevented"`. -/
theorem executeBuy_duplicate_reason_cex :
    (dupOrder ∈ ([dupOrder] : List Order) ∧ isDoneBid dupOrder = true ∧
      withinWindow envDup.now DUPLICATE_PREVENTION_HOURS dupOrder = true) ∧
    (executeBuy envDup).1.success = false ∧
    (executeBuy envDup).1.reason = some duplicateReasonMsg ∧
    (executeBuy envDup).1.reason ≠ some "duplicate_prevented" := by
  have hd : 0 < ((recentOrdersOf envDup.now DUPLICATE_PREVENTION_HOURS
      [dupOrder]).filter isDoneBid).length := by decide
  have h := executeBuy_duplicate envDup accountsOK [dupOrder] rfl amountOK_ge rfl hd
  refine ⟨by decide, ?_, ?_, ?_⟩
  · rw [h]
  · rw [h]
  · rw [h]
    decide

/-- C2 (amended): if the recent-orders response holds a `bid`/`done` order
inside the duplicate-prevention window, `executeBuy` returns
`{success: false, reason: '중복 매수 방지'}` (the duplicate-prevention
message) without calling place-order; if no `bid`/`done` order is inside
the window, the buy proceeds to order placement. -/
theorem executeBuy_duplicate_prevention (env : Env) (accounts : List Account)
    (orders : List Order)
    (hacc : env.accounts = Except.ok accounts)
    (hmin : ¬ buyAmountOf (krwBalanceOf accounts) < MIN_ORDER_AMOUNT)
    (hord : env.orders = Except.ok orders) :
    ((∃ o, o ∈ orders ∧ isDoneBid o = true ∧
        withinWindow env.now DUPLICATE_PREVENTION_HOURS o = true) →
      (executeBuy env).1 = { success := false, reason := some duplicateReasonMsg } ∧
      ApiCall.placeOrder ∉ (executeBuy env).2) ∧
    ((∀ o, o ∈ orders → isDoneBid o = true →
        withinWindow env.now DUPLICATE_PREVENTION_HOURS o = false) →
      ApiCall.placeOrder ∈ (executeBuy env).2) := by
  constructor
  · rintro ⟨o, ho, hbid, hwin⟩
    have hmem : o ∈ (recentOrdersOf env.now DUPLICATE_PREVENTION_HOURS orders).filter
        isDoneBid :=
      List.mem_filter.2 ⟨(mem_recentOrdersOf env.now DUPLICATE_PREVENTION_HOURS
        orders o).2 ⟨ho, hwin⟩, hbid⟩
    have hd := List.length_pos_of_mem hmem
    rw [executeBuy_duplicate env accounts orders hacc hmin hord hd]
    simp
  · intro hnone
    have hempty : (recentOrdersOf env.now DUPLICATE_PREVENTION_HOURS orders).filter
        isDoneBid = [] := by
      rw [List.filter_eq_nil_iff]
      intro o ho hbid
      rcases (mem_recentOrdersOf env.now DUPLICATE_PREVENTION_HOURS orders o).1 ho with
        ⟨homem, hwin⟩
      rw [hnone o homem hbid] at hwin
      exact Bool.false_ne_true hwin
    have hnodup : (checkDuplicateBuy env).1 = false := by
      simp [checkDuplicateBuy, getRecentOrders, hord, hempty]
    rcases hpl : env.placeResult with e | po
    · rw [executeBuy_place_error env accounts e hacc hmin hnodup hpl]
      simp
    · rw [executeBuy_place_ok env accounts po hacc hmin hnodup hpl]
      simp

/-- C2 witness: the order 30 minutes old triggers the prevention with no
placement call, while the same order 90 minutes old lets the buy reach
order placement. -/
theorem executeBuy_duplicate_prevention_witness :
    ((executeBuy envDup).1 = { success := false, reason := some duplicateReasonMsg } ∧
      ApiCall.placeOrder ∉ (executeBuy envDup).2) ∧
    ApiCall.placeOrder ∈ (executeBuy envOld).2 := by
  constructor
  · exact (executeBuy_duplicate_prevention envDup accountsOK [dupOrder] rfl
      amountOK_ge rfl).1 ⟨dupOrder, by decide, by decide, by decide⟩
  · exact (executeBuy_duplicate_prevention envOld accountsOK [oldOrder] rfl
      amountOK_ge rfl).2 (by decide)

/-- C4: if the recent-orders lookup itself raises, the duplicate check
fails open (`false`), the buy still reaches order placement, and a
successful placement yields a success result — the lookup failure alone
never produces a failure result. -/
theorem executeBuy_duplicate_check_fail_open (env : Env) (accounts : List Account)
    (e : String)
    (hacc : env.accounts = Except.ok accounts)
    (hmin : ¬ buyAmountOf (krwBalanceOf accounts) < MIN_ORDER_AMOUNT)
    (hord : env.orders = Except.error e) :
    (checkDuplicateBuy env).1 = false ∧
    ApiCall.placeOrder ∈ (executeBuy env).2 ∧
    (∀ po, env.placeResult = Except.ok po →
      (executeBuy env).1 = { success := true, orderId := some po.uuid,
                             amount := some (buyAmountOf (krwBalanceOf accounts)) }) := by
  have hnodup : (checkDuplicateBuy env).1 = false := by
    simp [checkDuplicateBuy, getRecentOrders, hord]
  refine ⟨hnodup, ?_, ?_⟩
  · rcases hpl : env.placeResult with e2 | po
    · rw [executeBuy_place_error env accounts e2 hacc hmin hnodup hpl]
      simp
    · rw [executeBuy_place_ok env accounts po hacc hmin hnodup hpl]
      simp
  · intro po hpl
    rw [executeBuy_place_ok env accounts po hacc hmin hnodup hpl]

/-- C4 witness: with the lookup rejecting (`lookup timeout`), the check
reports no duplicate, the placement call happens and the buy succeeds. -/
theorem executeBuy_duplicate_check_fail_open_witness :
    (checkDuplicateBuy envLookupErr).1 = false ∧
    ApiCall.placeOrder ∈ (executeBuy envLookupErr).2 ∧
    (executeBuy envLookupErr).1 = { success := true, orderId := some "abc-123",
                                    amount := some 12345 } := by
  have h := executeBuy_duplicate_check_fail_open envLookupErr accountsOK
    "lookup timeout" rfl amountOK_ge rfl
  have h3 := h.2.2 { uuid := "abc-123" } rfl
  rw [amountOK] at h3
  exact ⟨h.1, h.2.1, h3⟩

/-- C6: every invocation makes at most one order-placement call, and a
raised placement failure terminates the invocation with
`{success: false, error}` after exactly one placement attempt — no
retry. -/
theorem executeBuy_at_most_one_placement (env : Env) :
    ((executeBuy env).2.count ApiCall.placeOrder ≤ 1) ∧
    (∀ e, env.placeResult = Except.error e →
      ApiCall.placeOrder ∈ (executeBuy env).2 →
      (executeBuy env).1 = { success := false, error := some e } ∧
      (executeBuy env).2.count ApiCall.placeOrder = 1) := by
  exact executeBuy_cases env
    (fun p => (p.2.count ApiCall.placeOrder ≤ 1) ∧
      (∀ e, env.placeResult = Except.error e → ApiCall.placeOrder ∈ p.2 →
        p.1 = { success := false, error := some e } ∧
        p.2.count ApiCall.placeOrder = 1))
    (by intro e h; exact ⟨by simp, by intro e2 hpl hmem; simp at hmem⟩)
    (by intro a h hlt; exact ⟨by simp, by intro e2 hpl hmem; simp at hmem⟩)
    (by intro a o h1 h2 h3 h4; exact ⟨by simp, by intro e2 hpl hmem; simp at hmem⟩)
    (by
      intro a po h1 h2 h3 h4
      refine ⟨by simp [List.count_cons], ?_⟩
      intro e2 hpl hmem
      rw [h4] at hpl
      simp at hpl)
    (by
      intro a e h1 h2 h3 h4
      refine ⟨by simp [List.count_cons], ?_⟩
      intro e2 hpl hmem
      rw [h4] at hpl
      injection hpl with he
      subst he
      exact ⟨rfl, by simp [List.count_cons]⟩)

/-- C6 witness: with a rejecting placement, the run reports the failure
and the trace counts exactly one placement call. -/
theorem executeBuy_at_most_one_placement_witness :
    ((executeBuy envPlaceErr).2.count ApiCall.placeOrder ≤ 1) ∧
    (executeBuy envPlaceErr).1 = { success := false, error := some "order rejected" } ∧
    (executeBuy envPlaceErr).2.count ApiCall.placeOrder = 1 := by
  have h := executeBuy_at_most_one_placement envPlaceErr
  have hmem : ApiCall.placeOrder ∈ (executeBuy envPlaceErr).2 := by
    rw [executeBuy_place_error envPlaceErr accountsOK "order rejected" rfl
      amountOK_ge (by decide) rfl]
    simp
  have h2 := h.2 "order rejected" rfl hmem
  exact ⟨h.1, h2.1, h2.2⟩

/-- C8 counterexample: an order dated one hour after `now` is returned by
the recent-orders lookup although its `created_at` is outside
`[now - windowHours, now]` — the code filter has no upper bound at
`now`. -/
theorem getRecentOrders_upper_bound_cex :
    getRecentOrders envFuture DUPLICATE_PREVENTION_HOURS
      = (Except.ok [futureOrder], [ApiCall.getOrders]) ∧
    ¬ (futureOrder.created_at ≤ envFuture.now) := by
  constructor
  · rfl
  · decide

/-- C8 (amended): for every exchange response, `getRecentOrders` returns
exactly the orders with `createdAt ≥ now - windowHours` (a lower bound
only — future-dated orders are not excluded), preserving the exchange
ordering; the filter is a pure predicate over `createdAt`. -/
theorem getRecentOrders_window_filter (env : Env) (orders : List Order) (hours : Int)
    (hord : env.orders = Except.ok orders) :
    (getRecentOrders env hours).2 = [ApiCall.getOrders] ∧
    (getRecentOrders env hours).1 = Except.ok (recentOrdersOf env.now hours orders) ∧
    List.Sublist (recentOrdersOf env.now hours orders) orders ∧
    (∀ o, o ∈ recentOrdersOf env.now hours orders ↔
      (o ∈ orders ∧ env.now - hours * 60 * 60 * 1000 ≤ o.created_at)) := by
  refine ⟨by simp [getRecentOrders, hord], by simp [getRecentOrders, hord],
    List.filter_sublist orders, ?_⟩
  intro o
  simp [recentOrdersOf, List.mem_filter, withinWindow]

/-- C8 witness: applied to the single future-dated order, the lookup
returns the window filter of the response, and that order is kept because
it satisfies the lower bound. -/
theorem getRecentOrders_window_filter_witness :
    (getRecentOrders envFuture DUPLICATE_PREVENTION_HOURS).1
      = Except.ok (recentOrdersOf envFuture.now DUPLICATE_PREVENTION_HOURS [futureOrder]) ∧
    (futureOrder ∈ recentOrdersOf envFuture.now DUPLICATE_PREVENTION_HOURS [futureOrder] ↔
      (futureOrder ∈ ([futureOrder] : List Order) ∧
        envFuture.now - DUPLICATE_PREVENTION_HOURS * 60 * 60 * 1000
          ≤ futureOrder.created_at)) := by
  have h := getRecentOrders_window_filter envFuture [futureOrder]
    DUPLICATE_PREVENTION_HOURS rfl
  exact ⟨h.2.1, h.2.2.2 futureOrder⟩

/-- A `key=value` pair is a non-empty string. -/
lemma queryPairString_length_pos (p : String × String) :
    0 < (queryPairString p).length := by
  simp [queryPairString, String.length_append]
  exact Or.inl (Or.inr (by decide))

/-- The canonical query string of a non-empty parameter list is
non-empty. -/
lemma canonicalQueryString_cons_ne (p : String × String)
    (ps : List (String × String)) : canonicalQueryString (p :: ps) ≠ "" := by
  intro h
  have hlen : (canonicalQueryString (p :: ps)).length = 0 := by
    rw [h]
    rfl
  have hp := queryPairString_length_pos p
  cases ps with
  | nil =>
      rw [show canonicalQueryString [p] = queryPairString p from rfl] at hlen
      omega
  | cons q qs =>
      rw [show canonicalQueryString (p :: q :: qs)
          = queryPairString p ++ "&" ++ canonicalQueryString (q :: qs) from rfl,
        String.length_append, String.length_append] at hlen
      omega

/-- C5: for every authenticated request, the signed payload carries
`query_hash = sha512hex(canonicalQueryString)` and
`query_hash_alg = "SHA512"` exactly when the canonical query string
(`key=urlEncode(value)` pairs joined with `&` in original order) is
non-empty, and omits both when it is empty; the payload carries the access
key and the fresh nonce, `jwt.sign` runs with HS512, the header value is
`Bearer <token>`, and the canonical string of
`{market: "KRW-ETH", limit: "100"}` is exactly
`market=KRW-ETH&limit=100`. -/
theorem makeRequest_query_hash_binding (sign : JwtPayload → String → String)
    (sha512hex : String → String) (accessKey secretKey nonce method url : String)
    (params : List (String × String)) (r : AuthRequest)
    (hr : r = makeRequestAuth sign sha512hex accessKey secretKey nonce method url params) :
    (canonicalQueryString params ≠ "" →
      r.auth.payload.query_hash = some (sha512hex (canonicalQueryString params)) ∧
      r.auth.payload.query_hash_alg = some "SHA512") ∧
    (canonicalQueryString params = "" →
      r.auth.payload.query_hash = none ∧ r.auth.payload.query_hash_alg = none) ∧
    r.auth.payload.access_key = accessKey ∧
    r.auth.payload.nonce = nonce ∧
    r.auth.algorithm = "HS512" ∧
    r.auth.authorization = "Bearer " ++ sign r.auth.payload secretKey ∧
    canonicalQueryString [("market", "KRW-ETH"), ("limit", "100")]
      = "market=KRW-ETH&limit=100" := by
  subst hr
  cases params with
  | nil =>
      refine ⟨fun hne => absurd rfl hne, fun _ => ?_, ?_, ?_, ?_, ?_, by decide⟩ <;>
        simp [makeRequestAuth, generateJWT]
  | cons p ps =>
      have hne := canonicalQueryString_cons_ne p ps
      have hb : (canonicalQueryString (p :: ps) == "") = false :=
        beq_eq_false_iff_ne.2 hne
      refine ⟨fun _ => ?_, fun he => absurd he hne, ?_, ?_, ?_, ?_, by decide⟩ <;>
        simp [makeRequestAuth, generateJWT, hb]

/-- C5 witness: with `sha512hex` instantiated as a tagging function and
params `{market: "KRW-ETH", limit: "100"}`, the payload hashes exactly the
string `market=KRW-ETH&limit=100`, marks it `SHA512`, and signs with
HS512. -/
theorem makeRequest_query_hash_binding_witness :
    (makeRequestAuth (fun _ _ => "tok") (fun s => "sha512:" ++ s) "ak" "sk" "nonce-1"
        "GET" "/v1/orders" [("market", "KRW-ETH"), ("limit", "100")]).auth.payload.query_hash
      = some "sha512:market=KRW-ETH&limit=100" ∧
    (makeRequestAuth (fun _ _ => "tok") (fun s => "sha512:" ++ s) "ak" "sk" "nonce-1"
        "GET" "/v1/orders" [("market", "KRW-ETH"), ("limit", "100")]).auth.payload.query_hash_alg
      = some "SHA512" ∧
    (makeRequestAuth (fun _ _ => "tok") (fun s => "sha512:" ++ s) "ak" "sk" "nonce-1"
        "GET" "/v1/orders" [("market", "KRW-ETH"), ("limit", "100")]).auth.algorithm
      = "HS512" := by
  have h := makeRequest_query_hash_binding (fun _ _ => "tok") (fun s => "sha512:" ++ s)
    "ak" "sk" "nonce-1" "GET" "/v1/orders" [("market", "KRW-ETH"), ("limit", "100")] _ rfl
  have hne : canonicalQueryString [("market", "KRW-ETH"), ("limit", "100")] ≠ "" := by
    decide
  have h1 := h.1 hne
  refine ⟨?_, h1.2, h.2.2.2.2.1⟩
  rw [h1.1, h.2.2.2.2.2.2]
  decide

end UpbitBot
